import Mathlib

/-
  Verification development for the BlackHole analytics dashboard
  (src/app.py).  The classification / filtering / aggregation core of
  the program is shallowly embedded below; machine floats are modelled
  as `PFloat` (a rational value or the IEEE NaN), pandas columns as
  `List PFloat`, and the pandas `mean` / `quantile` (linear
  interpolation, NaN-skipping) operations as Lean functions.
-/

set_option maxHeartbeats 1000000

namespace BlackHole

/-- A pandas/numpy float cell: either an actual (finite) numeric value,
modelled as a rational, or the IEEE NaN produced for missing /
unparseable data and for reductions over empty columns. -/
inductive PFloat where
  | val (q : ℚ)
  | nan
deriving DecidableEq, Repr

/-- The non-missing (non-NaN) values of a column, in order.  pandas
reductions (`mean`, `quantile`) skip NaN entries, i.e. operate on
exactly this list. -/
def colVals (xs : List PFloat) : List ℚ :=
  xs.filterMap fun v =>
    match v with
    | PFloat.val q => some q
    | PFloat.nan => none

/-- Python `<` on floats: NaN compares false against everything. -/
def pyLt : PFloat → PFloat → Bool
  | PFloat.val a, PFloat.val b => decide (a < b)
  | _, _ => false

/-- Python `<=` on floats: NaN compares false against everything. -/
def pyLe : PFloat → PFloat → Bool
  | PFloat.val a, PFloat.val b => decide (a ≤ b)
  | _, _ => false

/-- Python truthiness of a float: `0.0` is falsy; every other value,
including NaN, is truthy. -/
def pyTruthy : PFloat → Bool
  | PFloat.val q => decide (q ≠ 0)
  | PFloat.nan => true

/-- Float multiplication; NaN propagates. -/
def pfMul : PFloat → PFloat → PFloat
  | PFloat.val a, PFloat.val b => PFloat.val (a * b)
  | _, _ => PFloat.nan

/-- Float division; NaN propagates.  (Division by an actual zero is
mapped to NaN; in the embedded program it only occurs behind a
truthiness guard that excludes a zero divisor.) -/
def pfDiv : PFloat → PFloat → PFloat
  | PFloat.val a, PFloat.val b => if b = 0 then PFloat.nan else PFloat.val (a / b)
  | _, _ => PFloat.nan

/-- Python `min(100, x)`: iterates starting from `100` and replaces it
only when `x < 100` holds, so a NaN argument yields `100`. -/
def pyMin100 : PFloat → ℚ
  | PFloat.val v => min 100 v
  | PFloat.nan => 100

/-- Linear-interpolation quantile of an already sorted, nonempty list
of values, exactly as `numpy`/`pandas` compute it: with
`h = q * (n - 1)`, `i = ⌊h⌋`, the result is
`s[i] + (h - i) * (s[i+1] - s[i])` (and `s[i]` when `i` is the last
index, since the fractional part is then zero). -/
def quantileSorted (s : List ℚ) (q : ℚ) : ℚ :=
  let h : ℚ := q * ((s.length : ℚ) - 1)
  let i : ℕ := h.floor.toNat
  let lo := s.getD i 0
  let hi := s.getD (i + 1) lo
  lo + (h - (h.floor : ℚ)) * (hi - lo)

/-- Embedding of `Series.quantile q`: drop NaNs, sort, linear interpolation; NaN on
an empty (or all-NaN) column. -/
def pdQuantile (xs : List PFloat) (q : ℚ) : PFloat :=
  let vs := colVals xs
  if vs.isEmpty then PFloat.nan
  else PFloat.val (quantileSorted (vs.insertionSort (· ≤ ·)) q)

/-- Embedding of `Series.mean`: arithmetic mean of the non-NaN values; NaN on an
empty (or all-NaN) column. -/
def pdMean (xs : List PFloat) : PFloat :=
  let vs := colVals xs
  if vs.isEmpty then PFloat.nan
  else PFloat.val (vs.sum / (vs.length : ℚ))

/-- Embedding of `classify_mass` (app.py:73-75): quantile thresholds are taken from
the full mass column `masses`; a NaN mass fails both `<` comparisons
and lands in the final `"High Mass"` branch. -/
def classify_mass (masses : List PFloat) (v : PFloat) : String :=
  let q1 := pdQuantile masses (33/100)
  let q2 := pdQuantile masses (66/100)
  if pyLt v q1 then "Low Mass"
  else if pyLt v q2 then "Medium Mass"
  else "High Mass"

/-- Embedding of `classify_spin` (app.py:77-78): fixed thresholds 0.33 / 0.66. -/
def classify_spin (v : PFloat) : String :=
  if pyLt v (PFloat.val (33/100)) then "Low Spin"
  else if pyLt v (PFloat.val (66/100)) then "Medium Spin"
  else "High Spin"

/-- Embedding of `classify_edd` (app.py:80-83): fixed thresholds 0.1 / 1.0. -/
def classify_edd (e : PFloat) : String :=
  if pyLt e (PFloat.val (1/10)) then "Sub-Eddington"
  else if pyLe e (PFloat.val 1) then "Near-Eddington"
  else "Super-Eddington"

/-- One row of the uploaded dataset, numeric columns only (the opaque
`BlackHole_ID` identifier is display-only and omitted).  Field order:
mass, spin factor, Eddington ratio, X-ray luminosity, magnetic flux,
gravitational redshift, radiation pressure, relativistic beaming
factor, hardness ratio, jet energy. -/
structure Record where
  mass : PFloat
  spin : PFloat
  edd : PFloat
  lum : PFloat
  flux : PFloat
  redshift : PFloat
  pressure : PFloat
  beaming : PFloat
  hardness : PFloat
  jet : PFloat
deriving DecidableEq, Repr

/-- A row after the classification columns `Mass_Class`, `Spin_Class`
and `Eddington_Class` (app.py:85-87) have been attached. -/
structure CRecord extends Record where
  Mass_Class : String
  Spin_Class : String
  Eddington_Class : String
deriving DecidableEq, Repr

/-- app.py:85-87: the three classification columns are computed once
over the full dataframe `df`; the mass thresholds come from the full
mass column. -/
def classifyAll (df : List Record) : List CRecord :=
  df.map fun r =>
    { toRecord := r
      Mass_Class := classify_mass (df.map Record.mass) r.mass
      Spin_Class := classify_spin r.spin
      Eddington_Class := classify_edd r.edd }

/-- The three sidebar multiselect values (app.py:94-96): one list of
allowed labels per classification dimension. -/
structure FilterSelection where
  massLabels : List String
  spinLabels : List String
  eddLabels : List String

/-- The row predicate of the boolean-mask filter (app.py:98-102). -/
def keepRow (sel : FilterSelection) (r : CRecord) : Bool :=
  sel.massLabels.contains r.Mass_Class &&
  sel.spinLabels.contains r.Spin_Class &&
  sel.eddLabels.contains r.Eddington_Class

/-- Embedding of `filtered` (app.py:98-102): row selection by boolean mask, which
keeps exactly the rows whose three class labels are all selected, in
their original order. -/
def filtered (rows : List CRecord) (sel : FilterSelection) : List CRecord :=
  rows.filter (keepRow sel)

/-- The default sidebar selection (app.py:94-96): the `unique()` label
lists actually observed in the classified full dataframe. -/
def observedSelection (rows : List CRecord) : FilterSelection :=
  { massLabels := (rows.map CRecord.Mass_Class).dedup
    spinLabels := (rows.map CRecord.Spin_Class).dedup
    eddLabels := (rows.map CRecord.Eddington_Class).dedup }

/-- app.py:217: `score = min(100, (jet_mean / jet_90) * 100) if jet_90
else 0`.  Note the Python semantics this inherits: NaN is truthy, so a
NaN `jet_90` reaches the first branch, and `min(100, NaN)` is `100`. -/
def jetPowerIndex (jet_mean jet_90 : PFloat) : ℚ :=
  if pyTruthy jet_90 then pyMin100 (pfMul (pfDiv jet_mean jet_90) (PFloat.val 100))
  else 0

/-- app.py:215-217: the gauge score; `jet_mean` is the mean jet energy
of the filtered subset, `jet_90` the 90th percentile of the FULL
dataframe's jet-energy column. -/
def score (subJets fullJets : List PFloat) : ℚ :=
  jetPowerIndex (pdMean subJets) (pdQuantile fullJets (9/10))

/-- The summary values the dashboard derives from the filtered subset
(KPI row, radar chart, gauge — app.py:109-126, 193-198, 214-217). -/
structure Summary where
  count : ℕ
  meanMass : PFloat
  meanSpin : PFloat
  meanLum : PFloat
  radar : List PFloat
  jetIdx : ℚ
deriving DecidableEq, Repr

/-- The aggregation pass over the filtered subset: `len(filtered)`,
the three KPI means, the radar vector of six columns means (all six
radar columns exist in the modelled schema, so the `else 0`
absent-column fallback of app.py:198 is never taken), and the jet
power index, whose 90th-percentile reference uses the full dataframe
`full`. -/
def aggregate (subset : List CRecord) (full : List Record) : Summary :=
  { count := subset.length
    meanMass := pdMean (subset.map fun r => r.mass)
    meanSpin := pdMean (subset.map fun r => r.spin)
    meanLum := pdMean (subset.map fun r => r.lum)
    radar := [pdMean (subset.map fun r => r.flux),
              pdMean (subset.map fun r => r.redshift),
              pdMean (subset.map fun r => r.pressure),
              pdMean (subset.map fun r => r.beaming),
              pdMean (subset.map fun r => r.hardness),
              pdMean (subset.map fun r => r.edd)]
    jetIdx := jetPowerIndex (pdMean (subset.map fun r => r.jet))
                            (pdQuantile (full.map Record.jet) (9/10)) }

/-- First record of the worked scenario in the specification:
mass 1, spin 0.2, Eddington ratio 0.05, jet energy 10 (remaining
columns set to 0; they do not participate). -/
def rec1 : Record :=
  { mass := PFloat.val 1, spin := PFloat.val (2/10), edd := PFloat.val (5/100)
    lum := PFloat.val 0, flux := PFloat.val 0, redshift := PFloat.val 0
    pressure := PFloat.val 0, beaming := PFloat.val 0, hardness := PFloat.val 0
    jet := PFloat.val 10 }

/-- Second scenario record: mass 5, spin 0.5, Eddington ratio 0.5,
jet energy 20. -/
def rec2 : Record :=
  { mass := PFloat.val 5, spin := PFloat.val (5/10), edd := PFloat.val (5/10)
    lum := PFloat.val 0, flux := PFloat.val 0, redshift := PFloat.val 0
    pressure := PFloat.val 0, beaming := PFloat.val 0, hardness := PFloat.val 0
    jet := PFloat.val 20 }

/-- Third scenario record: mass 9, spin 0.9, Eddington ratio 2.0,
jet energy 100. -/
def rec3 : Record :=
  { mass := PFloat.val 9, spin := PFloat.val (9/10), edd := PFloat.val 2
    lum := PFloat.val 0, flux := PFloat.val 0, redshift := PFloat.val 0
    pressure := PFloat.val 0, beaming := PFloat.val 0, hardness := PFloat.val 0
    jet := PFloat.val 100 }

/-- The scenario dataset of the specification, in order. -/
def scenarioFull : List Record := [rec1, rec2, rec3]

/-- The scenario selection: only `"High Mass"` on the mass dimension,
all observed labels on the other two. -/
def scenarioSel : FilterSelection :=
  { massLabels := ["High Mass"]
    spinLabels := ["Low Spin", "Medium Spin", "High Spin"]
    eddLabels := ["Sub-Eddington", "Near-Eddington", "Super-Eddington"] }

/-- The record `rec1` with the classification labels the program attaches. -/
def crec1 : CRecord :=
  { toRecord := rec1, Mass_Class := "Low Mass", Spin_Class := "Low Spin"
    Eddington_Class := "Sub-Eddington" }

/-- The record `rec2` with the classification labels the program attaches. -/
def crec2 : CRecord :=
  { toRecord := rec2, Mass_Class := "Medium Mass", Spin_Class := "Medium Spin"
    Eddington_Class := "Near-Eddington" }

/-- The record `rec3` with the classification labels the program attaches. -/
def crec3 : CRecord :=
  { toRecord := rec3, Mass_Class := "High Mass", Spin_Class := "High Spin"
    Eddington_Class := "Super-Eddington" }

/-! ### Helper lemmas -/

/-- The computable `Rat.floor` agrees with the `Int.floor` of the order structure. -/
theorem ratFloor_eq_intFloor (q : ℚ) : q.floor = ⌊q⌋ := by
  rw [Rat.floor_def', ← Rat.floor_def]

/-- Characterise `Rat.floor` by the usual two inequalities. -/
theorem ratFloor_eq_of (q : ℚ) (z : ℤ) (h1 : (z : ℚ) ≤ q) (h2 : q < z + 1) :
    q.floor = z := by
  rw [ratFloor_eq_intFloor]
  exact Int.floor_eq_iff.mpr ⟨h1, h2⟩

/-- Unfolded form of `quantileSorted` once the floor of the fractional
index is known. -/
theorem quantileSorted_formula (s : List ℚ) (q : ℚ) (i : ℕ)
    (hfl : (q * ((s.length : ℚ) - 1)).floor = (i : ℤ)) :
    quantileSorted s q =
      s.getD i 0 + (q * ((s.length : ℚ) - 1) - (i : ℚ)) *
        (s.getD (i + 1) (s.getD i 0) - s.getD i 0) := by
  simp only [quantileSorted, hfl]
  norm_num

/-- In a `(· ≤ ·)`-sorted list, entries are monotone in the index. -/
theorem sorted_getD_mono (s : List ℚ) (hs : List.Sorted (· ≤ ·) s) {i j : ℕ}
    (hij : i ≤ j) (hj : j < s.length) : s.getD i 0 ≤ s.getD j 0 := by
  have hi : i < s.length := lt_of_le_of_lt hij hj
  rw [List.getD_eq_get _ _ hi, List.getD_eq_get _ _ hj]
  exact hs.rel_get_of_le (show (⟨i, hi⟩ : Fin s.length) ≤ ⟨j, hj⟩ from hij)

/-- The default value of `getD` is irrelevant at an in-range index. -/
theorem getD_default_irrel (s : List ℚ) {n : ℕ} (hn : n < s.length) (d e : ℚ) :
    s.getD n d = s.getD n e := by
  rw [List.getD_eq_get _ _ hn, List.getD_eq_get _ _ hn]

/-- In a sorted list, `s.getD i 0 ≤ s.getD (i+1) (s.getD i 0)` — the
"upper" interpolation endpoint is at least the lower one, with the
out-of-range case collapsing to equality. -/
theorem sorted_getD_succ (s : List ℚ) (hs : List.Sorted (· ≤ ·) s) (i : ℕ) :
    s.getD i 0 ≤ s.getD (i + 1) (s.getD i 0) := by
  by_cases h : i + 1 < s.length
  · rw [getD_default_irrel s h _ 0]
    exact sorted_getD_mono s hs (Nat.le_succ i) h
  · rw [List.getD_eq_default _ _ (Nat.le_of_not_lt h)]

/-- All entries reachable by `getD` with default `0` are nonnegative
when the list's members are. -/
theorem getD_nonneg (s : List ℚ) (hpos : ∀ x ∈ s, 0 ≤ x) (n : ℕ) (d : ℚ)
    (hd : 0 ≤ d) : 0 ≤ s.getD n d := by
  by_cases h : n < s.length
  · rw [List.getD_eq_get _ _ h]
    exact hpos _ (s.get_mem _ _)
  · rw [List.getD_eq_default _ _ (Nat.le_of_not_lt h)]
    exact hd

/-- The interpolated quantile of a sorted nonempty list of nonnegative
values is nonnegative, for `0 ≤ q ≤ 1`. -/
theorem quantileSorted_nonneg (s : List ℚ) (hne : s ≠ [])
    (hpos : ∀ x ∈ s, 0 ≤ x) (q : ℚ) (hq0 : 0 ≤ q) (_hq1 : q ≤ 1) :
    0 ≤ quantileSorted s q := by
  have hlen : 0 < s.length := List.length_pos.mpr hne
  have hcast : (1 : ℚ) ≤ (s.length : ℚ) := by exact_mod_cast hlen
  have hfac : (0 : ℚ) ≤ (s.length : ℚ) - 1 := by linarith
  simp only [quantileSorted, ratFloor_eq_intFloor]
  set a := q * ((s.length : ℚ) - 1) with ha
  have ha0 : 0 ≤ a := mul_nonneg hq0 hfac
  have hfr0 : 0 ≤ a - (⌊a⌋ : ℚ) := sub_nonneg.mpr (Int.floor_le a)
  have hfr1 : a - (⌊a⌋ : ℚ) < 1 := by
    have := Int.lt_floor_add_one a
    linarith
  have hlo : 0 ≤ s.getD ⌊a⌋.toNat 0 := getD_nonneg s hpos _ 0 le_rfl
  have hhi : 0 ≤ s.getD (⌊a⌋.toNat + 1) (s.getD ⌊a⌋.toNat 0) :=
    getD_nonneg s hpos _ _ hlo
  nlinarith [hlo, hhi, hfr0, hfr1]

/-- The interpolated quantile is monotone in the quantile level. -/
theorem quantileSorted_mono (s : List ℚ) (hs : List.Sorted (· ≤ ·) s)
    (hne : s ≠ []) (p q : ℚ) (hp0 : 0 ≤ p) (hpq : p ≤ q) (hq1 : q ≤ 1) :
    quantileSorted s p ≤ quantileSorted s q := by
  have hlen : 0 < s.length := List.length_pos.mpr hne
  have hcast : (1 : ℚ) ≤ (s.length : ℚ) := by exact_mod_cast hlen
  have hfac : (0 : ℚ) ≤ (s.length : ℚ) - 1 := by linarith
  simp only [quantileSorted, ratFloor_eq_intFloor]
  set a := p * ((s.length : ℚ) - 1) with ha
  set b := q * ((s.length : ℚ) - 1) with hb
  have hab : a ≤ b := mul_le_mul_of_nonneg_right hpq hfac
  have ha0 : 0 ≤ a := mul_nonneg hp0 hfac
  have hb0 : 0 ≤ b := le_trans ha0 hab
  have hbtop : b ≤ (s.length : ℚ) - 1 := by
    calc b ≤ 1 * ((s.length : ℚ) - 1) := by
            rw [hb]; exact mul_le_mul_of_nonneg_right hq1 hfac
      _ = (s.length : ℚ) - 1 := one_mul _
  have hfa0 : 0 ≤ ⌊a⌋ := Int.floor_nonneg.mpr ha0
  have hfb0 : 0 ≤ ⌊b⌋ := Int.floor_nonneg.mpr hb0
  have hfab : ⌊a⌋ ≤ ⌊b⌋ := Int.floor_le_floor hab
  have hfbtop : ⌊b⌋ ≤ (s.length : ℤ) - 1 := by
    have hrw : (((s.length : ℤ) - 1 : ℤ) : ℚ) = (s.length : ℚ) - 1 := by
      push_cast; ring
    have := Int.floor_le_floor (α := ℚ) (show b ≤ (((s.length : ℤ) - 1 : ℤ) : ℚ) by
      rw [hrw]; exact hbtop)
    rwa [Int.floor_intCast] at this
  have hcasta : ((⌊a⌋.toNat : ℤ) : ℚ) = (⌊a⌋ : ℚ) := by
    rw [Int.toNat_of_nonneg hfa0]
  have hcastb : ((⌊b⌋.toNat : ℤ) : ℚ) = (⌊b⌋ : ℚ) := by
    rw [Int.toNat_of_nonneg hfb0]
  have hiblt : ⌊b⌋.toNat < s.length := by omega
  have hfra0 : 0 ≤ a - (⌊a⌋ : ℚ) := sub_nonneg.mpr (Int.floor_le a)
  have hfra1 : a - (⌊a⌋ : ℚ) < 1 := by
    have := Int.lt_floor_add_one a; linarith
  have hfrb0 : 0 ≤ b - (⌊b⌋ : ℚ) := sub_nonneg.mpr (Int.floor_le b)
  have hadj_a := sorted_getD_succ s hs ⌊a⌋.toNat
  have hadj_b := sorted_getD_succ s hs ⌊b⌋.toNat
  by_cases hcase : ⌊a⌋ = ⌊b⌋
  · rw [hcase]
    have hdiff : a - (⌊b⌋ : ℚ) ≤ b - (⌊b⌋ : ℚ) := by linarith
    nlinarith [hadj_b, hdiff, hfrb0, hcase]
  · have hlt : ⌊a⌋ < ⌊b⌋ := lt_of_le_of_ne hfab hcase
    have hsucc : ⌊a⌋.toNat + 1 ≤ ⌊b⌋.toNat := by omega
    have hmid : s.getD (⌊a⌋.toNat + 1) (s.getD ⌊a⌋.toNat 0) ≤ s.getD ⌊b⌋.toNat 0 := by
      have hrange : ⌊a⌋.toNat + 1 < s.length ∨ ⌊a⌋.toNat + 1 = ⌊b⌋.toNat ∧ ⌊b⌋.toNat < s.length := by
        omega
      have h1 : ⌊a⌋.toNat + 1 < s.length := lt_of_le_of_lt hsucc hiblt |>.trans_le le_rfl
      rw [getD_default_irrel s h1 _ 0]
      exact sorted_getD_mono s hs hsucc hiblt
    have hleft : s.getD ⌊a⌋.toNat 0 + (a - (⌊a⌋ : ℚ)) *
        (s.getD (⌊a⌋.toNat + 1) (s.getD ⌊a⌋.toNat 0) - s.getD ⌊a⌋.toNat 0) ≤
        s.getD (⌊a⌋.toNat + 1) (s.getD ⌊a⌋.toNat 0) := by
      nlinarith [hadj_a, hfra0, hfra1]
    have hright : s.getD ⌊b⌋.toNat 0 ≤ s.getD ⌊b⌋.toNat 0 + (b - (⌊b⌋ : ℚ)) *
        (s.getD (⌊b⌋.toNat + 1) (s.getD ⌊b⌋.toNat 0) - s.getD ⌊b⌋.toNat 0) := by
      nlinarith [hadj_b, hfrb0]
    linarith [hleft, hmid, hright]

/-- Value of `pdMean` on a column with at least one non-NaN value. -/
theorem pdMean_eq_val (xs : List PFloat) (h : colVals xs ≠ []) :
    pdMean xs = PFloat.val ((colVals xs).sum / ((colVals xs).length : ℚ)) := by
  simp only [pdMean, List.isEmpty_iff, h, if_false]

/-- Value of `pdMean` on a column with no non-NaN value is NaN. -/
theorem pdMean_eq_nan (xs : List PFloat) (h : colVals xs = []) :
    pdMean xs = PFloat.nan := by
  simp only [pdMean, h, List.isEmpty_nil, if_true]

/-- A column of nonnegative values has a nonnegative, non-NaN mean. -/
theorem pdMean_nonneg (xs : List PFloat) (h : colVals xs ≠ [])
    (hpos : ∀ x ∈ colVals xs, 0 ≤ x) :
    ∃ m : ℚ, pdMean xs = PFloat.val m ∧ 0 ≤ m := by
  refine ⟨_, pdMean_eq_val xs h, ?_⟩
  exact div_nonneg (List.sum_nonneg hpos) (Nat.cast_nonneg _)

/-- Value of `pdQuantile` on a column with at least one non-NaN value. -/
theorem pdQuantile_eq_val (xs : List PFloat) (q : ℚ) (h : colVals xs ≠ []) :
    pdQuantile xs q =
      PFloat.val (quantileSorted ((colVals xs).insertionSort (· ≤ ·)) q) := by
  simp only [pdQuantile, List.isEmpty_iff, h, if_false]

/-- Value of `pdQuantile` on a column with no non-NaN value is NaN. -/
theorem pdQuantile_eq_nan (xs : List PFloat) (q : ℚ) (h : colVals xs = []) :
    pdQuantile xs q = PFloat.nan := by
  simp only [pdQuantile, h, List.isEmpty_nil, if_true]

/-- A column of nonnegative values has a nonnegative, non-NaN
quantile, for `0 ≤ q ≤ 1`. -/
theorem pdQuantile_nonneg (xs : List PFloat) (q : ℚ) (h : colVals xs ≠ [])
    (hpos : ∀ x ∈ colVals xs, 0 ≤ x) (hq0 : 0 ≤ q) (hq1 : q ≤ 1) :
    ∃ v : ℚ, pdQuantile xs q = PFloat.val v ∧ 0 ≤ v := by
  refine ⟨_, pdQuantile_eq_val xs q h, ?_⟩
  have hperm := List.perm_insertionSort (· ≤ ·) (colVals xs)
  refine quantileSorted_nonneg _ ?_ ?_ q hq0 hq1
  · intro hnil
    have hp2 := hperm.symm
    rw [hnil] at hp2
    exact h hp2.eq_nil
  · intro x hx
    exact hpos x (hperm.mem_iff.mp hx)

/-! ### Concrete evaluation of the worked scenario -/

/-- The scenario's mass column. -/
theorem scenario_massCol :
    scenarioFull.map Record.mass = [PFloat.val 1, PFloat.val 5, PFloat.val 9] := rfl

/-- The scenario's jet-energy column. -/
theorem scenario_jetCol :
    scenarioFull.map Record.jet = [PFloat.val 10, PFloat.val 20, PFloat.val 100] := rfl

/-- Non-NaN mass values of the scenario. -/
theorem scenario_massVals :
    colVals [PFloat.val 1, PFloat.val 5, PFloat.val 9] = [1, 5, 9] := rfl

/-- Sorting the scenario's mass values is the identity. -/
theorem scenario_massSorted :
    (colVals [PFloat.val 1, PFloat.val 5, PFloat.val 9]).insertionSort (· ≤ ·) =
      [1, 5, 9] := by
  rw [scenario_massVals]
  norm_num [List.insertionSort, List.orderedInsert]

/-- 33rd percentile of masses {1, 5, 9}: `1 + 0.66 * (5 - 1) = 3.64`. -/
theorem lit_q1 :
    pdQuantile [PFloat.val 1, PFloat.val 5, PFloat.val 9] (33/100) =
      PFloat.val (91/25) := by
  rw [pdQuantile_eq_val _ _ (by rw [scenario_massVals]; simp)]
  rw [scenario_massSorted]
  rw [quantileSorted_formula _ _ 0 (ratFloor_eq_of _ 0 (by norm_num) (by norm_num))]
  norm_num [List.getD]

/-- 66th percentile of masses {1, 5, 9}: `5 + 0.32 * (9 - 5) = 6.28`. -/
theorem lit_q2 :
    pdQuantile [PFloat.val 1, PFloat.val 5, PFloat.val 9] (66/100) =
      PFloat.val (157/25) := by
  rw [pdQuantile_eq_val _ _ (by rw [scenario_massVals]; simp)]
  rw [scenario_massSorted]
  rw [quantileSorted_formula _ _ 1 (ratFloor_eq_of _ 1 (by norm_num) (by norm_num))]
  norm_num [List.getD]

/-- Mass 1 is below `q1 = 3.64`. -/
theorem cm_r1 :
    classify_mass [PFloat.val 1, PFloat.val 5, PFloat.val 9] (PFloat.val 1) =
      "Low Mass" := by
  simp only [classify_mass, lit_q1, lit_q2, pyLt]
  norm_num

/-- Mass 5 is between `q1 = 3.64` and `q2 = 6.28`. -/
theorem cm_r2 :
    classify_mass [PFloat.val 1, PFloat.val 5, PFloat.val 9] (PFloat.val 5) =
      "Medium Mass" := by
  simp only [classify_mass, lit_q1, lit_q2, pyLt]
  norm_num

/-- Mass 9 is above `q2 = 6.28`. -/
theorem cm_r3 :
    classify_mass [PFloat.val 1, PFloat.val 5, PFloat.val 9] (PFloat.val 9) =
      "High Mass" := by
  simp only [classify_mass, lit_q1, lit_q2, pyLt]
  norm_num

/-- Spin 0.2 is below 0.33. -/
theorem cs_r1 : classify_spin (PFloat.val (2/10)) = "Low Spin" := by
  simp only [classify_spin, pyLt]
  norm_num

/-- Spin 0.5 is between 0.33 and 0.66. -/
theorem cs_r2 : classify_spin (PFloat.val (5/10)) = "Medium Spin" := by
  simp only [classify_spin, pyLt]
  norm_num

/-- Spin 0.9 is above 0.66. -/
theorem cs_r3 : classify_spin (PFloat.val (9/10)) = "High Spin" := by
  simp only [classify_spin, pyLt]
  norm_num

/-- Eddington ratio 0.05 is below 0.1. -/
theorem ce_r1 : classify_edd (PFloat.val (5/100)) = "Sub-Eddington" := by
  simp only [classify_edd, pyLt, pyLe]
  norm_num

/-- Eddington ratio 0.5 is between 0.1 and 1. -/
theorem ce_r2 : classify_edd (PFloat.val (5/10)) = "Near-Eddington" := by
  simp only [classify_edd, pyLt, pyLe]
  norm_num

/-- Eddington ratio 2 is above 1. -/
theorem ce_r3 : classify_edd (PFloat.val 2) = "Super-Eddington" := by
  simp only [classify_edd, pyLt, pyLe]
  norm_num

/-- Classification of the scenario dataset. -/
theorem classifyAll_scenario : classifyAll scenarioFull = [crec1, crec2, crec3] := by
  unfold classifyAll
  rw [scenario_massCol]
  simp only [scenarioFull, List.map_cons, List.map_nil, rec1, rec2, rec3,
    crec1, crec2, crec3]
  rw [cm_r1, cm_r2, cm_r3, cs_r1, cs_r2, cs_r3, ce_r1, ce_r2, ce_r3]

/-- The first scenario record does not pass the `"High Mass"` filter. -/
theorem keep_crec1 : keepRow scenarioSel crec1 = false := by decide

/-- The second scenario record does not pass the `"High Mass"` filter. -/
theorem keep_crec2 : keepRow scenarioSel crec2 = false := by decide

/-- The third scenario record passes the filter on all dimensions. -/
theorem keep_crec3 : keepRow scenarioSel crec3 = true := by decide

/-- Filtering the classified scenario keeps exactly the third row. -/
theorem filtered_scenario : filtered [crec1, crec2, crec3] scenarioSel = [crec3] := by
  simp [filtered, List.filter_cons, List.filter_nil, keep_crec1, keep_crec2, keep_crec3]

/-- NaN compares `<`-false on the left whatever the right side is. -/
theorem pyLt_nan_left (b : PFloat) : pyLt PFloat.nan b = false := by
  cases b <;> rfl

/-- NaN compares `≤`-false on the left whatever the right side is. -/
theorem pyLe_nan_left (b : PFloat) : pyLe PFloat.nan b = false := by
  cases b <;> rfl

/-- A NaN mass lands in the `"High Mass"` fall-through branch. -/
theorem classify_mass_nan (masses : List PFloat) :
    classify_mass masses PFloat.nan = "High Mass" := by
  simp [classify_mass, pyLt_nan_left]

/-- A NaN spin lands in the `"High Spin"` fall-through branch. -/
theorem classify_spin_nan : classify_spin PFloat.nan = "High Spin" := by
  simp [classify_spin, pyLt_nan_left]

/-- A NaN Eddington ratio lands in the `"Super-Eddington"` branch. -/
theorem classify_edd_nan : classify_edd PFloat.nan = "Super-Eddington" := by
  simp [classify_edd, pyLt_nan_left, pyLe_nan_left]

/-- Membership form of `List.contains` for strings: it agrees with membership. -/
theorem contains_iff (l : List String) (a : String) :
    l.contains a = true ↔ a ∈ l := List.elem_iff

/-- NaN propagates through float division (left argument). -/
theorem pfDiv_nan_left (b : PFloat) : pfDiv PFloat.nan b = PFloat.nan := by
  cases b <;> rfl

/-- NaN propagates through float division (right argument). -/
theorem pfDiv_nan_right (a : PFloat) : pfDiv a PFloat.nan = PFloat.nan := by
  cases a <;> rfl

/-- NaN propagates through float multiplication (left argument). -/
theorem pfMul_nan_left (b : PFloat) : pfMul PFloat.nan b = PFloat.nan := by
  cases b <;> rfl

/-- A NaN 90th-percentile reference is truthy, so the gauge score
becomes `min(100, NaN) = 100`. -/
theorem jetPowerIndex_nan_right (a : PFloat) : jetPowerIndex a PFloat.nan = 100 := by
  simp [jetPowerIndex, pyTruthy, pfDiv_nan_right, pfMul_nan_left, pyMin100]

/-- A NaN subset mean with a truthy reference yields score 100. -/
theorem jetPowerIndex_nan_left (b : PFloat) (hb : pyTruthy b = true) :
    jetPowerIndex PFloat.nan b = 100 := by
  simp [jetPowerIndex, hb, pfDiv_nan_left, pfMul_nan_left, pyMin100]

/-- A zero 90th percentile is falsy: the score is `0`. -/
theorem jetPowerIndex_zero_ref (a : PFloat) : jetPowerIndex a (PFloat.val 0) = 0 := by
  simp [jetPowerIndex, pyTruthy]

/-- With both operands actual values and a nonzero reference, the
score is the clamped ratio. -/
theorem jetPowerIndex_vals (m p90 : ℚ) (h : p90 ≠ 0) :
    jetPowerIndex (PFloat.val m) (PFloat.val p90) = min 100 (m / p90 * 100) := by
  simp [jetPowerIndex, pyTruthy, h, pfDiv, pfMul, pyMin100]

/-! ### Claims -/

/-- C1 (amended): each classifier is total over `PFloat` — it always
returns one of its three real labels and never raises — but a missing
(NaN) value falls into the TOP bucket of its dimension ("High Mass" /
"High Spin" / "Super-Eddington"), not into an "Unknown" label, which
the program never produces.  Each classifier reads only its own
dimension's value, so the other two dimensions are unaffected by
construction. -/
theorem c1_classifiers_total_nan_top :
    ∀ (masses : List PFloat) (v : PFloat),
      (classify_mass masses v = "Low Mass" ∨ classify_mass masses v = "Medium Mass" ∨
        classify_mass masses v = "High Mass") ∧
      (classify_spin v = "Low Spin" ∨ classify_spin v = "Medium Spin" ∨
        classify_spin v = "High Spin") ∧
      (classify_edd v = "Sub-Eddington" ∨ classify_edd v = "Near-Eddington" ∨
        classify_edd v = "Super-Eddington") ∧
      classify_mass masses PFloat.nan = "High Mass" ∧
      classify_spin PFloat.nan = "High Spin" ∧
      classify_edd PFloat.nan = "Super-Eddington" := by
  intro masses v
  refine ⟨?_, ?_, ?_, classify_mass_nan masses, classify_spin_nan, classify_edd_nan⟩
  · simp only [classify_mass]
    split
    · exact Or.inl rfl
    · split
      · exact Or.inr (Or.inl rfl)
      · exact Or.inr (Or.inr rfl)
  · simp only [classify_spin]
    split
    · exact Or.inl rfl
    · split
      · exact Or.inr (Or.inl rfl)
      · exact Or.inr (Or.inr rfl)
  · simp only [classify_edd]
    split
    · exact Or.inl rfl
    · split
      · exact Or.inr (Or.inl rfl)
      · exact Or.inr (Or.inr rfl)

/-- C1 counterexample: on a record whose spin is missing (NaN), the
spin classifier returns "High Spin", not the "Unknown" the claim
requires (no classifier ever returns "Unknown"). -/
theorem c1_counterexample :
    classify_spin PFloat.nan = "High Spin" ∧ ("High Spin" : String) ≠ "Unknown" :=
  ⟨classify_spin_nan, by decide⟩

/-- C2 (amended): the spin classifier uses fixed thresholds 0.33 and
0.66 (not 0.3 and 0.7): for a non-missing spin s, it returns
"Low Spin" when s < 0.33, "Medium Spin" when 0.33 ≤ s < 0.66, and
"High Spin" when s ≥ 0.66. -/
theorem c2_spin_thresholds :
    ∀ s : ℚ,
      (s < 33/100 → classify_spin (PFloat.val s) = "Low Spin") ∧
      (33/100 ≤ s → s < 66/100 → classify_spin (PFloat.val s) = "Medium Spin") ∧
      (66/100 ≤ s → classify_spin (PFloat.val s) = "High Spin") := by
  intro s
  refine ⟨?_, ?_, ?_⟩
  · intro h
    simp only [classify_spin, pyLt, decide_eq_true_eq]
    rw [if_pos h]
  · intro h1 h2
    simp only [classify_spin, pyLt, decide_eq_true_eq]
    rw [if_neg (not_lt.mpr h1), if_pos h2]
  · intro h
    have h1 : ¬ s < 33/100 := not_lt.mpr (le_trans (by norm_num) h)
    simp only [classify_spin, pyLt, decide_eq_true_eq]
    rw [if_neg h1, if_neg (not_lt.mpr h)]

/-- C2 witness: s = 0.5 satisfies 0.33 ≤ s < 0.66 and is classified
"Medium Spin". -/
theorem c2_witness :
    (33/100 : ℚ) ≤ 1/2 ∧ (1/2 : ℚ) < 66/100 ∧
      classify_spin (PFloat.val (1/2)) = "Medium Spin" :=
  ⟨by norm_num, by norm_num,
    (c2_spin_thresholds (1/2)).2.1 (by norm_num) (by norm_num)⟩

/-- C2 counterexample: s = 0.31 lies in the claim's "Medium Spin"
band (0.3 ≤ s < 0.7), yet the program returns "Low Spin" because its
actual lower threshold is 0.33. -/
theorem c2_counterexample :
    (3/10 : ℚ) ≤ 31/100 ∧ (31/100 : ℚ) < 7/10 ∧
      classify_spin (PFloat.val (31/100)) = "Low Spin" ∧
      ("Low Spin" : String) ≠ "Medium Spin" := by
  refine ⟨by norm_num, by norm_num, ?_, by decide⟩
  simp only [classify_spin, pyLt, decide_eq_true_eq]
  rw [if_pos (by norm_num)]

/-- C4 (amended): on an empty filtered subset the aggregation yields
`count = 0` and every mean — mass, spin, luminosity and all six radar
fields — is the float NaN that `Series.mean` returns for an empty
column (the KPI layer then formats it as the numeric-looking string
"nan"); there is no tagged "NoData" result anywhere, and nothing
raises. -/
theorem c4_empty_aggregate :
    ∀ full : List Record,
      (aggregate [] full).count = 0 ∧
      (aggregate [] full).meanMass = PFloat.nan ∧
      (aggregate [] full).meanSpin = PFloat.nan ∧
      (aggregate [] full).meanLum = PFloat.nan ∧
      (aggregate [] full).radar =
        [PFloat.nan, PFloat.nan, PFloat.nan, PFloat.nan, PFloat.nan, PFloat.nan] := by
  intro full
  refine ⟨rfl, ?_, ?_, ?_, ?_⟩ <;> simp [aggregate, pdMean, colVals]

/-- C4 counterexample: on the empty subset the aggregated means are
the float NaN value itself — precisely what the claim says the
aggregator must not produce in place of a tagged "NoData" result. -/
theorem c4_counterexample :
    (aggregate [] scenarioFull).count = 0 ∧
    (aggregate [] scenarioFull).meanMass = PFloat.nan ∧
    (aggregate [] scenarioFull).meanSpin = PFloat.nan := by
  refine ⟨rfl, ?_, ?_⟩ <;> simp [aggregate, pdMean, colVals]

/-- C3 (amended): for finite nonnegative jet energies the gauge score
is always within [0, 100] and equals
`min(100, 100 * jetMeanSubset / jetP90Full)` whenever both quantities
are defined and the reference is nonzero; it is 0 exactly when the
full set's 90th percentile is a (defined) zero; but when that
percentile is undefined (NaN) or the subset has no jet-energy data,
the score is 100, not 0 — Python treats NaN as truthy and
`min(100, NaN)` evaluates to 100. -/
theorem c3_jet_power_index :
    ∀ (subJets fullJets : List PFloat),
      (∀ x ∈ colVals subJets, 0 ≤ x) → (∀ x ∈ colVals fullJets, 0 ≤ x) →
      (0 ≤ score subJets fullJets ∧ score subJets fullJets ≤ 100) ∧
      (∀ m p90 : ℚ, pdMean subJets = PFloat.val m →
        pdQuantile fullJets (9/10) = PFloat.val p90 → p90 ≠ 0 →
        score subJets fullJets = min 100 (m / p90 * 100)) ∧
      (pdQuantile fullJets (9/10) = PFloat.val 0 → score subJets fullJets = 0) ∧
      (colVals subJets = [] → pyTruthy (pdQuantile fullJets (9/10)) = true →
        score subJets fullJets = 100) ∧
      (colVals fullJets = [] → score subJets fullJets = 100) := by
  intro subJets fullJets hsub hfull
  refine ⟨?_, ?_, ?_, ?_, ?_⟩
  · by_cases hf : colVals fullJets = []
    · rw [score, pdQuantile_eq_nan _ _ hf, jetPowerIndex_nan_right]
      norm_num
    · obtain ⟨p90, hp90, hp90pos⟩ := pdQuantile_nonneg fullJets (9/10) hf hfull
        (by norm_num) (by norm_num)
      by_cases hz : p90 = 0
      · rw [score, hp90, hz, jetPowerIndex_zero_ref]
        norm_num
      · by_cases hs : colVals subJets = []
        · rw [score, pdMean_eq_nan _ hs, hp90,
            jetPowerIndex_nan_left _ (by simp [pyTruthy, hz])]
          norm_num
        · obtain ⟨m, hm, hmpos⟩ := pdMean_nonneg subJets hs hsub
          rw [score, hm, hp90, jetPowerIndex_vals m p90 hz]
          constructor
          · apply le_min (by norm_num)
            have : 0 ≤ m / p90 := div_nonneg hmpos hp90pos
            nlinarith
          · exact min_le_left _ _
  · intro m p90 hm hp90 hz
    rw [score, hm, hp90, jetPowerIndex_vals m p90 hz]
  · intro h0
    rw [score, h0, jetPowerIndex_zero_ref]
  · intro hs ht
    rw [score, pdMean_eq_nan _ hs, jetPowerIndex_nan_left _ ht]
  · intro hf
    rw [score, pdQuantile_eq_nan _ _ hf, jetPowerIndex_nan_right]

/-- C3 witness: with subset jets {50} and full-set jets {10}, the
score is within the bounds the theorem asserts. -/
theorem c3_witness :
    0 ≤ score [PFloat.val 50] [PFloat.val 10] ∧
      score [PFloat.val 50] [PFloat.val 10] ≤ 100 :=
  (c3_jet_power_index [PFloat.val 50] [PFloat.val 10]
    (by intro x hx; simp [colVals] at hx; simp [hx])
    (by intro x hx; simp [colVals] at hx; simp [hx])).1

/-- C3 counterexample: when the filtered subset has no jet-energy
data, the score is 100, not the 0 the claim requires (the subset mean
is NaN, NaN is truthy, and `min(100, NaN) = 100`). -/
theorem c3_counterexample :
    score [] [PFloat.val 10] = 100 ∧ (100 : ℚ) ≠ 0 := by
  constructor
  · rw [score, pdMean_eq_nan ([] : List PFloat) rfl]
    apply jetPowerIndex_nan_left
    rw [pdQuantile_eq_val _ _ (by simp [colVals])]
    simp only [pyTruthy, decide_eq_true_eq]
    rw [show colVals [PFloat.val 10] = [10] from rfl]
    rw [show List.insertionSort (· ≤ ·) [(10 : ℚ)] = [10] from rfl]
    rw [quantileSorted_formula _ _ 0 (ratFloor_eq_of _ 0 (by norm_num) (by norm_num))]
    norm_num [List.getD]
  · norm_num

/-- C5 (confirmed): for a non-missing mass m, with q1 and q2 the 33rd
and 66th linear-interpolation percentiles of the full mass column, the
classifier returns "Low Mass" when m < q1, "Medium Mass" when
q1 ≤ m < q2, and "High Mass" when m ≥ q2 — boundary values fall into
the higher bucket. -/
theorem c5_mass_classifier :
    ∀ (masses : List PFloat) (m : ℚ), colVals masses ≠ [] →
      ((m < quantileSorted ((colVals masses).insertionSort (· ≤ ·)) (33/100) →
        classify_mass masses (PFloat.val m) = "Low Mass") ∧
       (quantileSorted ((colVals masses).insertionSort (· ≤ ·)) (33/100) ≤ m →
        m < quantileSorted ((colVals masses).insertionSort (· ≤ ·)) (66/100) →
        classify_mass masses (PFloat.val m) = "Medium Mass") ∧
       (quantileSorted ((colVals masses).insertionSort (· ≤ ·)) (66/100) ≤ m →
        classify_mass masses (PFloat.val m) = "High Mass")) := by
  intro masses m hne
  have hq1 := pdQuantile_eq_val masses (33/100) hne
  have hq2 := pdQuantile_eq_val masses (66/100) hne
  have hsorted : List.Sorted (· ≤ ·) ((colVals masses).insertionSort (· ≤ ·)) :=
    List.sorted_insertionSort _ _
  have hsne : (colVals masses).insertionSort (· ≤ ·) ≠ [] := by
    intro hnil
    have hp := (List.perm_insertionSort (· ≤ ·) (colVals masses)).symm
    rw [hnil] at hp
    exact hne hp.eq_nil
  have hmono : quantileSorted ((colVals masses).insertionSort (· ≤ ·)) (33/100) ≤
      quantileSorted ((colVals masses).insertionSort (· ≤ ·)) (66/100) :=
    quantileSorted_mono _ hsorted hsne (33/100) (66/100)
      (by norm_num) (by norm_num) (by norm_num)
  refine ⟨?_, ?_, ?_⟩
  · intro h
    simp only [classify_mass, hq1, hq2, pyLt, decide_eq_true_eq]
    rw [if_pos h]
  · intro h1 h2
    simp only [classify_mass, hq1, hq2, pyLt, decide_eq_true_eq]
    rw [if_neg (not_lt.mpr h1), if_pos h2]
  · intro h
    simp only [classify_mass, hq1, hq2, pyLt, decide_eq_true_eq]
    rw [if_neg (not_lt.mpr (le_trans hmono h)), if_neg (not_lt.mpr h)]

/-- C5 witness: over masses {1, 5, 9} the 66th percentile is 6.28,
and mass 7 ≥ 6.28 is classified "High Mass". -/
theorem c5_witness :
    colVals [PFloat.val 1, PFloat.val 5, PFloat.val 9] ≠ [] ∧
    quantileSorted
      ((colVals [PFloat.val 1, PFloat.val 5, PFloat.val 9]).insertionSort (· ≤ ·))
      (66/100) ≤ 7 ∧
    classify_mass [PFloat.val 1, PFloat.val 5, PFloat.val 9] (PFloat.val 7) =
      "High Mass" := by
  have hne : colVals [PFloat.val 1, PFloat.val 5, PFloat.val 9] ≠ [] := by
    rw [scenario_massVals]; simp
  have hq2v : quantileSorted
      ((colVals [PFloat.val 1, PFloat.val 5, PFloat.val 9]).insertionSort (· ≤ ·))
      (66/100) = 157/25 := by
    rw [scenario_massSorted]
    rw [quantileSorted_formula _ _ 1 (ratFloor_eq_of _ 1 (by norm_num) (by norm_num))]
    norm_num [List.getD]
  refine ⟨hne, by rw [hq2v]; norm_num, ?_⟩
  exact (c5_mass_classifier [PFloat.val 1, PFloat.val 5, PFloat.val 9] 7 hne).2.2
    (by rw [hq2v]; norm_num)

/-- C6 (confirmed): a record is in the filtered subset iff it is in
the input AND its mass class, spin class and Eddington class are each
contained in the corresponding selected label list; an empty selection
on any single dimension yields an empty subset. -/
theorem c6_filter_semantics :
    (∀ (rows : List CRecord) (sel : FilterSelection) (r : CRecord),
      r ∈ filtered rows sel ↔
        r ∈ rows ∧ r.Mass_Class ∈ sel.massLabels ∧
          r.Spin_Class ∈ sel.spinLabels ∧ r.Eddington_Class ∈ sel.eddLabels) ∧
    (∀ (rows : List CRecord) (sL eL : List String),
      filtered rows { massLabels := [], spinLabels := sL, eddLabels := eL } = []) ∧
    (∀ (rows : List CRecord) (mL eL : List String),
      filtered rows { massLabels := mL, spinLabels := [], eddLabels := eL } = []) ∧
    (∀ (rows : List CRecord) (mL sL : List String),
      filtered rows { massLabels := mL, spinLabels := sL, eddLabels := [] } = []) := by
  refine ⟨?_, ?_, ?_, ?_⟩
  · intro rows sel r
    rw [filtered, List.mem_filter]
    constructor
    · rintro ⟨hmem, hkeep⟩
      rw [keepRow, Bool.and_eq_true, Bool.and_eq_true] at hkeep
      exact ⟨hmem, (contains_iff _ _).mp hkeep.1.1, (contains_iff _ _).mp hkeep.1.2,
        (contains_iff _ _).mp hkeep.2⟩
    · rintro ⟨hmem, h1, h2, h3⟩
      refine ⟨hmem, ?_⟩
      rw [keepRow, Bool.and_eq_true, Bool.and_eq_true]
      exact ⟨⟨(contains_iff _ _).mpr h1, (contains_iff _ _).mpr h2⟩,
        (contains_iff _ _).mpr h3⟩
  · intro rows sL eL
    rw [filtered]
    apply List.filter_eq_nil_iff.mpr
    intro r _
    simp [keepRow]
  · intro rows mL eL
    rw [filtered]
    apply List.filter_eq_nil_iff.mpr
    intro r _
    simp [keepRow]
  · intro rows mL sL
    rw [filtered]
    apply List.filter_eq_nil_iff.mpr
    intro r _
    simp [keepRow]

/-- C7 (confirmed): filtering is idempotent, and filtering with the
full label sets actually observed in the row set (the program's
default selection) returns the row set unchanged. -/
theorem c7_filter_idempotent_identity :
    (∀ (rows : List CRecord) (sel : FilterSelection),
      filtered (filtered rows sel) sel = filtered rows sel) ∧
    (∀ rows : List CRecord, filtered rows (observedSelection rows) = rows) := by
  constructor
  · intro rows sel
    rw [filtered, filtered]
    apply List.filter_eq_self.mpr
    intro a ha
    exact List.of_mem_filter ha
  · intro rows
    rw [filtered]
    apply List.filter_eq_self.mpr
    intro a ha
    have h1 : a.Mass_Class ∈ (rows.map CRecord.Mass_Class).dedup :=
      List.mem_dedup.mpr (List.mem_map_of_mem _ ha)
    have h2 : a.Spin_Class ∈ (rows.map CRecord.Spin_Class).dedup :=
      List.mem_dedup.mpr (List.mem_map_of_mem _ ha)
    have h3 : a.Eddington_Class ∈ (rows.map CRecord.Eddington_Class).dedup :=
      List.mem_dedup.mpr (List.mem_map_of_mem _ ha)
    rw [keepRow, observedSelection, Bool.and_eq_true, Bool.and_eq_true]
    exact ⟨⟨(contains_iff _ _).mpr h1, (contains_iff _ _).mpr h2⟩,
      (contains_iff _ _).mpr h3⟩

/-- C8 (confirmed): every record surviving any filter carries exactly
the labels computed at classification time from the FULL dataset (the
mass thresholds come from the full mass column; labels are attached by
`classifyAll` and no filter recomputes them), and the jet power index
aggregated over any filtered subset always takes its 90th-percentile
reference from the full jet-energy column, never from the subset. -/
theorem c8_full_population_references :
    (∀ (df : List Record) (sel : FilterSelection) (r : CRecord),
      r ∈ filtered (classifyAll df) sel →
        r.Mass_Class = classify_mass (df.map Record.mass) r.mass ∧
        r.Spin_Class = classify_spin r.spin ∧
        r.Eddington_Class = classify_edd r.edd) ∧
    (∀ (df : List Record) (sel : FilterSelection),
      (aggregate (filtered (classifyAll df) sel) df).jetIdx =
        jetPowerIndex (pdMean ((filtered (classifyAll df) sel).map fun r => r.jet))
          (pdQuantile (df.map Record.jet) (9/10))) := by
  constructor
  · intro df sel r hr
    have hr2 : r ∈ classifyAll df := List.mem_of_mem_filter hr
    rw [classifyAll, List.mem_map] at hr2
    obtain ⟨x, _, rfl⟩ := hr2
    exact ⟨rfl, rfl, rfl⟩
  · intro df sel
    rfl

/-- C8 witness: in the worked scenario, the surviving record's mass
label is exactly what the classifier computes from the full mass
column. -/
theorem c8_witness :
    crec3 ∈ filtered (classifyAll scenarioFull) scenarioSel ∧
    crec3.Mass_Class = classify_mass (scenarioFull.map Record.mass) crec3.mass := by
  have hmem : crec3 ∈ filtered (classifyAll scenarioFull) scenarioSel := by
    rw [classifyAll_scenario, filtered_scenario]
    exact List.mem_singleton.mpr rfl
  exact ⟨hmem,
    (c8_full_population_references.1 scenarioFull scenarioSel crec3 hmem).1⟩

/-- C9 counterexample: for the scenario masses {1, 5, 9} the 66th
percentile is 6.28, not (approximately) the claimed 7.28 — the
difference is exactly 1. -/
theorem c9_counterexample :
    pdQuantile (scenarioFull.map Record.mass) (66/100) = PFloat.val (157/25) ∧
    (157/25 : ℚ) ≠ 728/100 ∧ (728/100 - 157/25 : ℚ) = 1 := by
  refine ⟨?_, by norm_num, by norm_num⟩
  rw [scenario_massCol]
  exact lit_q2

/-- C9 (amended): for the scenario records with (mass, spin, edd, jet)
= (1, 0.2, 0.05, 10), (5, 0.5, 0.5, 20), (9, 0.9, 2.0, 100): the
33rd/66th mass percentiles are 3.64 and 6.28 (not 7.28), the mass
classes are "Low Mass", "Medium Mass", "High Mass" respectively, and
filtering to massLabels = {"High Mass"} (all labels selected on the
other dimensions) yields exactly the third record, with aggregate
count = 1 and meanMass = 9. -/
theorem c9_scenario :
    pdQuantile (scenarioFull.map Record.mass) (33/100) = PFloat.val (91/25) ∧
    pdQuantile (scenarioFull.map Record.mass) (66/100) = PFloat.val (157/25) ∧
    classifyAll scenarioFull = [crec1, crec2, crec3] ∧
    crec1.Mass_Class = "Low Mass" ∧ crec2.Mass_Class = "Medium Mass" ∧
    crec3.Mass_Class = "High Mass" ∧
    filtered (classifyAll scenarioFull) scenarioSel = [crec3] ∧
    (aggregate (filtered (classifyAll scenarioFull) scenarioSel) scenarioFull).count = 1 ∧
    (aggregate (filtered (classifyAll scenarioFull) scenarioSel) scenarioFull).meanMass =
      PFloat.val 9 := by
  have hfil : filtered (classifyAll scenarioFull) scenarioSel = [crec3] := by
    rw [classifyAll_scenario]
    exact filtered_scenario
  refine ⟨?_, ?_, classifyAll_scenario, rfl, rfl, rfl, hfil, ?_, ?_⟩
  · rw [scenario_massCol]; exact lit_q1
  · rw [scenario_massCol]; exact lit_q2
  · rw [hfil]; rfl
  · rw [hfil]
    show pdMean ([crec3].map fun r => r.mass) = PFloat.val 9
    rw [show ([crec3].map fun r => r.mass) = [PFloat.val 9] from rfl]
    rw [pdMean_eq_val _ (by simp [colVals])]
    rw [show colVals [PFloat.val 9] = [9] from rfl]
    norm_num

/-- C10 (confirmed): filtering returns an order-preserving
subsequence of its input (a `Sublist`), containing each record that
satisfies the selection exactly as many times as the input does (so
each selected record exactly once when the input has no duplicates)
and no record that fails it. -/
theorem c10_filter_order_preserving :
    ∀ (rows : List CRecord) (sel : FilterSelection),
      (filtered rows sel).Sublist rows ∧
      (∀ r : CRecord, List.count r (filtered rows sel) =
        if keepRow sel r = true then List.count r rows else 0) := by
  intro rows sel
  refine ⟨List.filter_sublist rows, ?_⟩
  intro r
  by_cases h : keepRow sel r = true
  · rw [if_pos h, filtered]
    exact List.count_filter h
  · rw [if_neg h, filtered]
    apply List.count_eq_zero.mpr
    intro hmem
    exact h (List.of_mem_filter hmem)

end BlackHole
